import Mathlib

/-!
# Gym-Simulator core: shallow embedding and verification

This file embeds, in Lean 4, the core data model and operations of the
Gym-Simulator repository (equipment occupancy, the pathfinding grid with its
dynamic obstacle cache, the A* search, NPC target selection and departure
logic), translated from the Python sources under `src/dist/`, and proves
properties of those operations.

Conventions used throughout:
  * Python `//` (floor division) on integers is `Int.fdiv`.
  * Python sets of state strings are modelled as `List String` with
    insert/filter (membership is what the code observes).
  * `float('inf')` sentinels are modelled with `Option` (`none` = infinity).
  * Exact values `a + b*sqrt 2` replace the floating-point costs
    `1` and `math.sqrt(2)`; comparisons are decided exactly in `Int`.
  * Calls to `random.random()` / `random.choice` are modelled by explicit
    parameters (a rational draw, or an index reduced modulo the list length),
    so every theorem quantifies over all possible draws.
-/

namespace GymSim

/-! ## Equipment base object (`gym_objects/base_object.py`)

`GymObject.__init__` sets `occupied = False`, `occupying_npc = None`,
`interaction_timer = 0`, `states = set()`.  Only the fields read or written
by the methods the claims are about are modelled. -/

structure GymObj where
  occupied : Bool
  occupyingNpc : Option Nat
  interactionTimer : Int
  states : List String
  deriving Repr, DecidableEq

namespace GymObj

/-- `add_state`: `self.states.add(state)` (a set, so no duplicates). -/
def addState (o : GymObj) (s : String) : GymObj :=
  { o with states := if s ∈ o.states then o.states else s :: o.states }

/-- `remove_state`: `self.states.discard(state)`. -/
def removeState (o : GymObj) (s : String) : GymObj :=
  { o with states := o.states.filter (· ≠ s) }

/-- `has_state`. -/
def hasState (o : GymObj) (s : String) : Bool := o.states.contains s

/-- `GymObject.is_available`:
`return not self.occupied and "dirty" not in self.states`. -/
def isAvailable (o : GymObj) : Bool :=
  !o.occupied && !(o.states.contains "dirty")

/-- `GymObject.start_interaction(npc)`: fails (no mutation) unless available;
on success marks occupied, records the occupant, resets the timer and adds
the `"in_use"` state.  Returns the new object and the Python return value. -/
def startInteraction (o : GymObj) (npc : Nat) : GymObj × Bool :=
  if !(o.isAvailable) then (o, false)
  else
    (addState { o with occupied := true, occupyingNpc := some npc,
                       interactionTimer := 0 } "in_use", true)

/-- `GymObject.end_interaction`: clears the occupant, the occupied flag and
the timer, and removes `"in_use"`.  (The notification of the occupying NPC
and of the pathfinding system are external effects with no impact on the
equipment's own state.) -/
def endInteraction (o : GymObj) : GymObj :=
  removeState { o with occupied := false, occupyingNpc := none,
                       interactionTimer := 0 } "in_use"

end GymObj

/-! ## Treadmill (`gym_objects/treadmill.py`) -/

structure Treadmill where
  base : GymObj
  onButNotOccupied : Bool
  deriving Repr, DecidableEq

/-- `Treadmill.is_available`:
`return not self.occupied and not self.on_but_not_occupied`
(note: unlike the base class it does not consult the `"dirty"` state). -/
def Treadmill.isAvailable (t : Treadmill) : Bool :=
  !t.base.occupied && !t.onButNotOccupied

/-! ## Dumbbell rack (`gym_objects/dumbbell_rack.py`)

Fields modelled: the base-object state, the visual inventory
(`dumbbell_count`, `current_visual_frame`, `max_dumbbells = 6`), the
per-weight inventory `racked_dumbbells` and the per-NPC `borrowed_dumbbells`
ledger (association lists keyed by weight resp. NPC id). -/

structure DumbbellRack where
  base : GymObj
  dumbbellCount : Nat
  maxDumbbells : Nat
  currentVisualFrame : Nat
  rackedDumbbells : List (Nat × Nat)
  borrowedDumbbells : List (Nat × List Nat)
  deriving Repr, DecidableEq

namespace DumbbellRack

/-- `update_visual_state`: recomputes `current_visual_frame` from
`dumbbell_count` (valid states 6/4/2/0 map to frames 0/1/2/3; invalid
counts are clamped to the nearest valid state). -/
def updateVisualState (r : DumbbellRack) : DumbbellRack :=
  let target : Nat :=
    if r.dumbbellCount = 0 then 3
    else if r.dumbbellCount = 2 then 2
    else if r.dumbbellCount = 4 then 1
    else if r.dumbbellCount = 6 then 0
    else if r.dumbbellCount < 2 then 3
    else if r.dumbbellCount < 4 then 2
    else if r.dumbbellCount < 6 then 1
    else 0
  { r with currentVisualFrame := target }

/-- `use_dumbbell`: takes 2 dumbbells if at least 2 remain, refreshing the
visual state; otherwise fails with no mutation. -/
def useDumbbell (r : DumbbellRack) : DumbbellRack × Bool :=
  if 2 ≤ r.dumbbellCount then
    (updateVisualState { r with dumbbellCount := r.dumbbellCount - 2 }, true)
  else (r, false)

/-- `DumbbellRack.is_available`: base availability, a positive dumbbell
count, and the visual frame not being the empty frame (`frame 3`). -/
def isAvailable (r : DumbbellRack) : Bool :=
  r.base.isAvailable && decide (0 < r.dumbbellCount)
    && !(decide (r.currentVisualFrame = 3))

/-- `get_available_weights`: weights whose racked count is positive, in
dictionary (insertion) order. -/
def getAvailableWeights (r : DumbbellRack) : List Nat :=
  (r.rackedDumbbells.filter (fun wc => 0 < wc.2)).map (·.1)

/-- `borrow_dumbbells(npc, weights)`: for each requested weight with stock,
decrement `racked_dumbbells` and append the weight to the NPC's borrowed
list. -/
def borrowDumbbells (r : DumbbellRack) (npc : Nat) (weights : List Nat) :
    DumbbellRack :=
  weights.foldl (fun r w =>
    if 0 < ((r.rackedDumbbells.lookup w).getD 0) then
      { r with
        rackedDumbbells :=
          r.rackedDumbbells.map (fun wc => if wc.1 = w then (wc.1, wc.2 - 1) else wc),
        borrowedDumbbells :=
          if (r.borrowedDumbbells.lookup npc).isSome then
            r.borrowedDumbbells.map
              (fun nl => if nl.1 = npc then (nl.1, nl.2 ++ [w]) else nl)
          else r.borrowedDumbbells ++ [(npc, [w])] }
    else r) r

/-- absolute distance between two weights, for the `min(..., key=...)`
closest-weight selection. -/
def weightDist (w preferred : Nat) : Nat := max w preferred - min w preferred

/-- Python `min(available, key=lambda x: abs(x - preferred))`: first element
attaining the minimal distance, in list order. -/
def closestWeight (preferred : Nat) : List Nat → Option Nat
  | [] => none
  | w :: ws =>
    match closestWeight preferred ws with
    | none => some w
    | some b => if weightDist w preferred ≤ weightDist b preferred then some w else some b

/-- `DumbbellRack.start_interaction(npc)` (the NPC path, where the NPC has
no `preferred_weight` attribute so the default weight 20 is used): base
start, then the defensive `use_dumbbell` re-check — on its failure the
occupancy is rolled back via the base `end_interaction` and the whole call
returns `False` — then borrowing of the two closest-weight dumbbells. -/
def startInteraction (r : DumbbellRack) (npc : Nat) : DumbbellRack × Bool :=
  match GymObj.startInteraction r.base npc with
  | (b, false) => ({ r with base := b }, false)
  | (b, true) =>
    let r1 := { r with base := b }
    match useDumbbell r1 with
    | (r2, false) => ({ r2 with base := r2.base.endInteraction }, false)
    | (r2, true) =>
      let preferred := 20
      match closestWeight preferred r2.getAvailableWeights with
      | some w => (borrowDumbbells r2 npc [w, w], true)
      | none => (r2, true)

end DumbbellRack

/-! ## Squat rack (`gym_objects/squat_rack.py`) -/

structure SquatRack where
  base : GymObj
  plateCount : Nat
  currentVisualFrame : Nat
  deriving Repr, DecidableEq

/-- `SquatRack.is_available`: base availability, positive plate count, and
the visual frame being exactly frame 0 (the full rack). -/
def SquatRack.isAvailable (s : SquatRack) : Bool :=
  s.base.isAvailable && decide (0 < s.plateCount)
    && decide (s.currentVisualFrame = 0)

/-! ## Tile collidability (`core/tile_map.py`, `TileMap.is_collidable`) -/

def collidableIds : List Int :=
  [882, 912, 853, 763, 793, 823, 883, 822, 732, 791, 821, 851, 761, 942]

def isCollidable (tileId : Int) : Bool := collidableIds.contains tileId

/-! ## Pathfinding grid and obstacle cache (`core/ai.py`, `GymPathfinder`)

The grid of `Node` objects is modelled by its `walkable` field only, as a
function `Nat → Nat → Bool` over grid coordinates (the per-search fields
`g_cost`/`f_cost`/`parent` live in the A* search state below, mirroring
the reset performed at the start of `_find_path_internal`).  A gym object,
as seen by `update_obstacle_cache`, is its collision `pygame.Rect`
(`left`/`top`/`right`/`bottom`), its `occupied` flag and whether it has a
`bench_type` attribute (only `Bench` instances do). -/

structure PRect where
  left : Int
  top : Int
  right : Int
  bottom : Int
  deriving Repr, DecidableEq

structure Obstacle where
  rect : PRect
  occupied : Bool
  hasBenchType : Bool
  deriving Repr, DecidableEq

structure GymPathfinder where
  width : Nat
  height : Nat
  cellSize : Int
  layer1 : List (List Int)
  objects : List Obstacle
  walkable : Nat → Nat → Bool
  obstacleCache : List (Nat × Nat)
  cacheDirty : Bool

namespace GymPathfinder

/-- `mark_cache_dirty` (also `invalidate_cache`). -/
def markCacheDirty (pf : GymPathfinder) : GymPathfinder :=
  { pf with cacheDirty := true }

/-- `screen_to_grid`: floor-divide by the cell size, then clamp into the
grid bounds (this is what makes the conversion total on negative and
out-of-range coordinates). -/
def screenToGrid (pf : GymPathfinder) (sx sy : Int) : Nat × Nat :=
  let gx := max 0 (min ((pf.width : Int) - 1) (sx.fdiv pf.cellSize))
  let gy := max 0 (min ((pf.height : Int) - 1) (sy.fdiv pf.cellSize))
  (gx.toNat, gy.toNat)

/-- `grid_to_screen`: the centre of the tile (`//` is floor division). -/
def gridToScreen (pf : GymPathfinder) (gx gy : Nat) : Int × Int :=
  (gx * pf.cellSize + pf.cellSize.fdiv 2, gy * pf.cellSize + pf.cellSize.fdiv 2)

/-- Marking a list of grid cells unwalkable (the net effect of the
`node.walkable = False` writes of one marking loop). -/
def markCells (g : Nat → Nat → Bool) (cs : List (Nat × Nat)) :
    Nat → Nat → Bool :=
  cs.foldl (fun g c => fun x y => if x = c.1 ∧ y = c.2 then false else g x y) g

/-- Tile id of `layer1` at grid cell `(x, y)` (the maps built by
`TileMap` are rectangular of size `height × width`). -/
def tileAt (pf : GymPathfinder) (x y : Nat) : Int :=
  ((pf.layer1.getD y []).getD x 0)

/-- The wall-marking loop of `update_obstacle_cache`: every cell of the
(height × width) `layer1` enumeration whose tile id is collidable. -/
def wallCells (pf : GymPathfinder) : List (Nat × Nat) :=
  (List.range pf.height).flatMap (fun y =>
    ((List.range pf.width).filter (fun x => isCollidable (pf.tileAt x y))).map
      (fun x => (x, y)))

/-- Python `range(a, b)` over integers, as a list of grid (ℕ) coordinates;
`a` is already clamped nonnegative by the caller. -/
def intRange (a b : Int) : List Nat :=
  (List.range (b - a).toNat).map (fun i : Nat => (a + (i : Int)).toNat)

/-- The cells one gym object marks unwalkable: the clamped grid cells of
its collision rect and — when the object is occupied and has a
`bench_type` attribute — for each such cell, the cell directly south of it
(if inside the grid). -/
def objCells (pf : GymPathfinder) (o : Obstacle) : List (Nat × Nat) :=
  let startX := max 0 (o.rect.left.fdiv pf.cellSize)
  let endX := min ((pf.width : Int) - 1) (o.rect.right.fdiv pf.cellSize)
  let startY := max 0 (o.rect.top.fdiv pf.cellSize)
  let endY := min ((pf.height : Int) - 1) (o.rect.bottom.fdiv pf.cellSize)
  (intRange startX (endX + 1)).flatMap (fun gx =>
    (intRange startY (endY + 1)).flatMap (fun gy =>
      if gx < pf.width ∧ gy < pf.height then
        (gx, gy) ::
          (if o.occupied ∧ o.hasBenchType ∧ gx < pf.width ∧ gy + 1 < pf.height
           then [(gx, gy + 1)] else [])
      else []))

/-- All cells marked by the registered gym objects. -/
def allObjCells (pf : GymPathfinder) : List (Nat × Nat) :=
  pf.objects.flatMap (fun o => pf.objCells o)

/-- `update_obstacle_cache`: no-op when the cache is clean; otherwise reset
every cell to walkable, mark wall cells, then mark gym-object cells (plus
the south cells in front of occupied benches), and clear the dirty flag.
The `_obstacle_cache` set is exactly the set of marked cells. -/
def updateObstacleCache (pf : GymPathfinder) : GymPathfinder :=
  if !pf.cacheDirty then pf
  else
    { pf with
      walkable := markCells (markCells (fun _ _ => true) pf.wallCells)
        pf.allObjCells,
      obstacleCache := pf.wallCells ++ pf.allObjCells,
      cacheDirty := false }

/-- Whether grid cell `(x, y)` lies in the clamped grid range of an
object's collision rect (the cells the marking loop of
`update_obstacle_cache` visits for that object). -/
def coveredB (pf : GymPathfinder) (o : Obstacle) (x y : Nat) : Bool :=
  decide (max 0 (o.rect.left.fdiv pf.cellSize) ≤ (x : Int)) &&
  decide ((x : Int) ≤ min ((pf.width : Int) - 1) (o.rect.right.fdiv pf.cellSize)) &&
  decide (max 0 (o.rect.top.fdiv pf.cellSize) ≤ (y : Int)) &&
  decide ((y : Int) ≤ min ((pf.height : Int) - 1) (o.rect.bottom.fdiv pf.cellSize))

/-- Whether grid cell `(x, y)` is blocked as the south-adjacent cell in
front of an occupied bench-type object (one cell below each covered cell
of the object's rect, kept inside the grid). -/
def frontB (pf : GymPathfinder) (o : Obstacle) (x y : Nat) : Bool :=
  o.occupied && o.hasBenchType && decide (0 < y) && decide (y < pf.height) &&
    coveredB pf o x (y - 1)

/-- `is_valid`: in bounds and walkable. -/
def isValidB (pf : GymPathfinder) (x y : Int) : Bool :=
  decide (0 ≤ x) && decide (x < (pf.width : Int)) &&
  decide (0 ≤ y) && decide (y < (pf.height : Int)) &&
  pf.walkable x.toNat y.toNat

end GymPathfinder

/-! ## A* search (`core/ai.py`, `GymPathfinder._find_path_internal`)

Costs are the exact values `o + d·√2` (`Rt2 o d`) in place of the
floating-point `1` and `math.sqrt(2)`; the comparison is decided exactly.
`float('inf')` (the initial `g_cost`/`f_cost`) is `none`. -/

structure Rt2 where
  o : Int
  d : Int
  deriving Repr, DecidableEq

namespace Rt2

def add (x y : Rt2) : Rt2 := ⟨x.o + y.o, x.d + y.d⟩

instance : Add Rt2 := ⟨add⟩

/-- Exact strict comparison: `x < y` iff `0 < (y.o−x.o) + (y.d−x.d)·√2`. -/
def ltB (x y : Rt2) : Bool :=
  let a := y.o - x.o
  let b := y.d - x.d
  if b = 0 then decide (0 < a)
  else if 0 < b then decide (0 ≤ a) || decide (a * a < 2 * (b * b))
  else decide (0 < a) && decide (2 * (b * b) < a * a)

/-- The real number `o + d·√2` denoted by an `Rt2` value. -/
noncomputable def toReal (x : Rt2) : ℝ := x.o + x.d * Real.sqrt 2

end Rt2

/-- `∞`-aware comparison (`none` = `float('inf')`; `inf < inf` is false). -/
def oLt (x y : Option Rt2) : Bool :=
  match x, y with
  | none, _ => false
  | some _, none => true
  | some a, some b => a.ltB b

/-- `∞`-absorbing addition for `g_cost + distance`. -/
def oAdd (x : Option Rt2) (y : Rt2) : Option Rt2 :=
  match x with
  | none => none
  | some a => some (a + y)

abbrev Coord := Int × Int

/-- Per-node search data reset at the start of `_find_path_internal`
(`g_cost = inf`, `f_cost = inf`, `parent = None`; `h_cost` is recomputed
where used). -/
structure NodeData where
  g : Option Rt2 := none
  f : Option Rt2 := none
  parent : Option Coord := none

/-- The mutable per-node search fields of the whole grid. -/
structure AState where
  node : Coord → NodeData

def AState.update (s : AState) (c : Coord) (d : NodeData) : AState :=
  ⟨fun c' => if c' = c then d else s.node c'⟩

namespace GymPathfinder

/-- `heuristic`: Manhattan distance (an integer, the same in both modes). -/
def heuristic (a b : Coord) : Rt2 :=
  ⟨(a.1 - b.1).natAbs + (a.2 - b.2).natAbs, 0⟩

/-- `get_distance`: `√2` for a diagonal step, `1` otherwise. -/
def getDistance (a b : Coord) : Rt2 :=
  if (a.1 - b.1).natAbs = 1 ∧ (a.2 - b.2).natAbs = 1 then ⟨0, 1⟩ else ⟨1, 0⟩

/-- The direction list of `get_neighbors` (orthogonal first, diagonal
appended when allowed). -/
def dirs (allowDiagonal : Bool) : List Coord :=
  [(0, 1), (1, 0), (0, -1), (-1, 0)] ++
    (if allowDiagonal then [(1, 1), (1, -1), (-1, 1), (-1, -1)] else [])

/-- One candidate direction is kept iff the target cell is valid and — for
a diagonal step — neither orthogonal flank needed to cut the corner is
invalid. -/
def stepOk (pf : GymPathfinder) (allowDiagonal : Bool) (n d : Coord) : Bool :=
  pf.isValidB (n.1 + d.1) (n.2 + d.2) &&
  (if allowDiagonal && d.1.natAbs = 1 && d.2.natAbs = 1 then
      pf.isValidB (n.1 + d.1) n.2 && pf.isValidB n.1 (n.2 + d.2)
    else true)

/-- `get_neighbors`. -/
def getNeighbors (pf : GymPathfinder) (allowDiagonal : Bool) (n : Coord) :
    List Coord :=
  ((dirs allowDiagonal).filter (stepOk pf allowDiagonal n)).map
    (fun d => (n.1 + d.1, n.2 + d.2))

/-! The open set is a `heapq` binary heap of `Node` objects compared by
`Node.__lt__`, i.e. by their *current* `f_cost` (`hLt` below reads the
search state at comparison time, exactly as the in-place mutation of
`f_cost` makes Python's comparisons do — the heap is **not** re-sifted
when an open node's `f_cost` is improved, so it may be stale). -/

/-- `Node.__lt__`: `self.f_cost < other.f_cost`. -/
def hLt (s : AState) (a b : Coord) : Bool := oLt ((s.node a).f) ((s.node b).f)

/-- `heapq._siftdown(heap, startpos, pos)` inner loop: walk `newitem`'s
position up toward `startpos`, moving larger parents down; returns the
shifted heap and the final position (the caller stores `newitem` there).
The fuel is the initial `pos`: the position strictly decreases on every
iteration, so the guard `startpos < pos` fails before the fuel does. -/
def siftdownLoop (s : AState) (newitem : Coord) (startpos : Nat) :
    Nat → Array Coord → Nat → Array Coord × Nat
  | 0, heap, pos => (heap, pos)
  | fuel + 1, heap, pos =>
    if startpos < pos then
      let parentpos := (pos - 1) / 2
      let parent := heap.getD parentpos newitem
      if hLt s newitem parent then
        siftdownLoop s newitem startpos fuel (heap.setD pos parent) parentpos
      else (heap, pos)
    else (heap, pos)

/-- `heapq._siftdown`. -/
def siftdown (s : AState) (heap : Array Coord) (startpos pos : Nat) :
    Array Coord :=
  let newitem := heap.getD pos (0, 0)
  let (heap, pos) := siftdownLoop s newitem startpos pos heap pos
  heap.setD pos newitem

/-- `heapq._siftup(heap, pos)` inner loop: bubble the hole at `pos` down,
always moving the smaller child up, until reaching a leaf; returns the
shifted heap and the leaf position.  The fuel is the heap size: the
position strictly increases while staying below `size`, so the guard
`childpos < endpos` fails before the fuel does. -/
def siftupLoop (s : AState) : Nat → Array Coord → Nat → Array Coord × Nat
  | 0, heap, pos => (heap, pos)
  | fuel + 1, heap, pos =>
    let endpos := heap.size
    let childpos := 2 * pos + 1
    if childpos < endpos then
      let rightpos := childpos + 1
      if rightpos < endpos ∧
          hLt s (heap.getD childpos (0, 0)) (heap.getD rightpos (0, 0)) = false
      then siftupLoop s fuel (heap.setD pos (heap.getD rightpos (0, 0))) rightpos
      else siftupLoop s fuel (heap.setD pos (heap.getD childpos (0, 0))) childpos
    else (heap, pos)

/-- `heapq._siftup`: move the last element dropped into the hole at `pos`
down to a leaf, then sift it back up toward `pos`. -/
def siftup (s : AState) (heap : Array Coord) (pos : Nat) : Array Coord :=
  let startpos := pos
  let newitem := heap.getD pos (0, 0)
  let (heap, pos') := siftupLoop s heap.size heap pos
  siftdown s (heap.setD pos' newitem) startpos pos'

/-- `heapq.heappush`. -/
def heappush (s : AState) (heap : Array Coord) (item : Coord) : Array Coord :=
  siftdown s (heap.push item) 0 heap.size

/-- `heapq.heappop`: returns the root, moves the last element to the root
and sifts it up.  `none` on the empty heap (the `while open_set:` guard
means the search loop never pops an empty heap). -/
def heappop (s : AState) (heap : Array Coord) :
    Option (Coord × Array Coord) :=
  if heap.size = 0 then none
  else
    let lastelt := heap.getD (heap.size - 1) (0, 0)
    let heap := heap.pop
    if heap.size = 0 then some (lastelt, heap)
    else
      let returnitem := heap.getD 0 (0, 0)
      some (returnitem, siftup s (heap.setD 0 lastelt) 0)

/-- The body of the neighbor loop of one A* iteration: skip closed
neighbors; if the tentative `g` strictly improves, set `g`, `h`, `f` and
the parent link, and `heappush` onto the open heap unless already there. -/
def relaxOne (_pf : GymPathfinder) (goal cur : Coord)
    (closed : List Coord) (so : AState × Array Coord) (nb : Coord) :
    AState × Array Coord :=
  if closed.contains nb then so
  else
    let s := so.1
    let openl := so.2
    let tentative := oAdd ((s.node cur).g) (getDistance cur nb)
    if oLt tentative ((s.node nb).g) then
      let s' := s.update nb
        { g := tentative,
          f := oAdd tentative (heuristic nb goal),
          parent := some cur }
      (s', if openl.contains nb then openl else heappush s' openl nb)
    else so

/-- The neighbor-relaxation loop of one A* iteration (`for neighbor in
self.get_neighbors(...)`). -/
def relaxAll (pf : GymPathfinder) (allowDiagonal : Bool) (goal cur : Coord)
    (closed : List Coord) : AState × Array Coord → AState × Array Coord :=
  fun so =>
    (pf.getNeighbors allowDiagonal cur).foldl
      (relaxOne pf goal cur closed) so

/-- `reconstruct_path`: follow parent links from the goal and reverse.
Fuel bounds the walk (the parent links of a terminated search form no
cycle, so the fuel used by `findPathInternal` is never exhausted). -/
def reconstructPath (s : AState) : Nat → Coord → List Coord
  | 0, c => [c]
  | fuel + 1, c =>
    match (s.node c).parent with
    | none => [c]
    | some p => reconstructPath s fuel p ++ [c]

/-- The `while open_set:` loop.  One fuel unit per pop; `_find_path_internal`
supplies enough fuel that exhaustion is unreachable (each node is pushed at
most once: a popped node is closed and never relaxed again). -/
def astarLoop (pf : GymPathfinder) (allowDiagonal : Bool) (goal : Coord) :
    Nat → AState → Array Coord → List Coord → Option (List Coord)
  | 0, _, _, _ => none
  | fuel + 1, s, openl, closed =>
    match heappop s openl with
    | none => none
    | some (cur, rest) =>
      if cur = goal then
        some (reconstructPath s (pf.width * pf.height + 1) goal)
      else
        astarLoop pf allowDiagonal goal fuel
          (relaxAll pf allowDiagonal goal cur (cur :: closed) (s, rest)).1
          (relaxAll pf allowDiagonal goal cur (cur :: closed) (s, rest)).2
          (cur :: closed)

/-- `_find_path_internal`: validity checks on the endpoints, reset of the
per-node search data, initialisation of the start node, then the search
loop. -/
def findPathInternal (pf : GymPathfinder) (start goal : Coord)
    (allowDiagonal : Bool) : Option (List Coord) :=
  if !(pf.isValidB start.1 start.2) || !(pf.isValidB goal.1 goal.2) then none
  else
    let h0 := heuristic start goal
    let s0 : AState :=
      ⟨fun c => if c = start then
          { g := some ⟨0, 0⟩, f := some (Rt2.add ⟨0, 0⟩ h0), parent := none }
        else {}⟩
    astarLoop pf allowDiagonal goal (pf.width * pf.height + 1) s0 #[start] []

/-- `find_path`: rebuild the obstacle cache if dirty, convert the screen
coordinates, and run the internal search. -/
def findPath (pf : GymPathfinder) (startPos goalPos : Int × Int)
    (allowDiagonal : Bool) : Option (List Coord) :=
  let pf := pf.updateObstacleCache
  let sg := pf.screenToGrid startPos.1 startPos.2
  let gg := pf.screenToGrid goalPos.1 goalPos.2
  pf.findPathInternal ((sg.1 : Int), (sg.2 : Int)) ((gg.1 : Int), (gg.2 : Int))
    allowDiagonal

end GymPathfinder

/-! ## NPC target selection (`core/npc.py`, `NPC._choose_new_behavior` /
`NPC._try_alternative_target`)

The gym objects seen by selection are partitioned by substring tests on
the runtime class name (`'Bench' in obj.__class__.__name__`, ...); the
registered classes are `Bench`, `Treadmill`, `DumbbellRack`, `SquatRack`,
`FrontDesk`, `Trashcan` (`gym_objects/*.py`).  `random.choice` is modelled
by an arbitrary index reduced modulo the list length. -/

inductive GymClass
  | bench | treadmill | dumbbellRack | squatRack | frontDesk | trashcan
  deriving DecidableEq, Repr

/-- `type(obj).__name__` for each registered class. -/
def className : GymClass → String
  | .bench => "Bench"
  | .treadmill => "Treadmill"
  | .dumbbellRack => "DumbbellRack"
  | .squatRack => "SquatRack"
  | .frontDesk => "FrontDesk"
  | .trashcan => "Trashcan"

/-- Python's `pat in s` substring test, on character lists. -/
def startsWithList : List Char → List Char → Bool
  | [], _ => true
  | _ :: _, [] => false
  | a :: as, b :: bs => a = b && startsWithList as bs

def containsList (pat : List Char) : List Char → Bool
  | [] => startsWithList pat []
  | c :: cs => startsWithList pat (c :: cs) || containsList pat cs

def strContains (s pat : String) : Bool := containsList pat.toList s.toList

/-- A gym object as the selection logic observes it: its runtime class,
the `gym_manager.object_types` entry for its position, whether
`get_collision_rect()` is truthy (a non-degenerate rect), and the result
of its `is_available()` (consulted only for dumbbell racks). -/
structure SelObj where
  cls : GymClass
  objType : String
  hasCollisionRect : Bool
  isAvail : Bool
  deriving DecidableEq, Repr

/-- `random.choice(l)` with the draw supplied as an index modulo the list
length (`none` only on the empty list, where Python raises). -/
def pick {α : Type} (l : List α) (k : Nat) : Option α := l[k % l.length]?

/-- The candidate partition of `_choose_new_behavior` (after gathering
`available_objects` from the gym manager): benches / treadmills /
dumbbell racks (only those whose `is_available()` holds) / squat racks,
with the list matching the NPC's `last_gym_object_type` blanked. -/
def partitionObjs (objs : List SelObj) (lastType : Option String) :
    List SelObj × List SelObj × List SelObj × List SelObj :=
  let avail := objs.filter (fun o =>
    !(o.objType = "front_desk" || o.objType = "trashcan") && o.hasCollisionRect)
  let benches := avail.filter (fun o => strContains (className o.cls) "Bench")
  let treadmills := avail.filter (fun o => strContains (className o.cls) "Treadmill")
  let dumbbellRacks := avail.filter (fun o =>
    strContains (className o.cls) "DumbbellRack" && o.isAvail)
  let squatRacks := avail.filter (fun o => strContains (className o.cls) "SquatRack")
  if lastType = some "bench" then ([], treadmills, dumbbellRacks, squatRacks)
  else if lastType = some "treadmill" then (benches, [], dumbbellRacks, squatRacks)
  else if lastType = some "dumbbell_rack" then (benches, treadmills, [], squatRacks)
  else if lastType = some "squat_rack" then (benches, treadmills, dumbbellRacks, [])
  else (benches, treadmills, dumbbellRacks, squatRacks)

/-- The `all_available_types` list stored for the pathfinding-failure
fallback (also the list `random.choice` draws a type from). -/
def availableTypesOf (p : List SelObj × List SelObj × List SelObj × List SelObj) :
    List String :=
  let benches := p.1
  let treadmills := p.2.1
  let dumbbellRacks := p.2.2.1
  let squatRacks := p.2.2.2
  (if !treadmills.isEmpty then ["Treadmill"] else []) ++
  (if !benches.isEmpty then ["Bench"] else []) ++
  (if !dumbbellRacks.isEmpty then ["DumbbellRack"] else []) ++
  (if !squatRacks.isEmpty then ["SquatRack"] else [])

/-- The preferred-type lookup of `_choose_new_behavior` (`behavior_type`
maps to a class-name string if its candidate list is nonempty). -/
def preferredTypeOf (behaviorType : String)
    (p : List SelObj × List SelObj × List SelObj × List SelObj) :
    Option String :=
  let benches := p.1
  let treadmills := p.2.1
  let dumbbellRacks := p.2.2.1
  let squatRacks := p.2.2.2
  if behaviorType = "dumbbell_user" && !dumbbellRacks.isEmpty then some "DumbbellRack"
  else if behaviorType = "bench_user" && !benches.isEmpty then some "Bench"
  else if behaviorType = "treadmill_user" && !treadmills.isEmpty then some "Treadmill"
  else if behaviorType = "squat_rack_user" && !squatRacks.isEmpty then some "SquatRack"
  else none

/-- The selection core of `_choose_new_behavior`: on success returns the
target together with the stored `available_types` and `chosen_type`
(`none` corresponds to the paths that reset the NPC to `idle`).  The
local bindings of the Python code (`available_objects`, the partition
lists, `chosen_type`, `target`) are written inline. -/
def chooseNewBehavior (objs : List SelObj) (lastType : Option String)
    (behaviorType : String) (rt ro : Nat) :
    Option (SelObj × List String × String) :=
  if (objs.filter (fun o =>
      !(o.objType = "front_desk" || o.objType = "trashcan") &&
        o.hasCollisionRect)).isEmpty then none
  else if (partitionObjs objs lastType).1.length +
      (partitionObjs objs lastType).2.1.length +
      (partitionObjs objs lastType).2.2.1.length +
      (partitionObjs objs lastType).2.2.2.length = 0 then none
  else
    match (match preferredTypeOf behaviorType (partitionObjs objs lastType) with
           | some t => some t
           | none => pick (availableTypesOf (partitionObjs objs lastType)) rt) with
    | none => none
    | some chosenType =>
      match (if chosenType = "Treadmill" then
               pick (partitionObjs objs lastType).2.1 ro
             else if chosenType = "Bench" then
               pick (partitionObjs objs lastType).1 ro
             else if chosenType = "DumbbellRack" then
               pick (partitionObjs objs lastType).2.2.1 ro
             else if chosenType = "SquatRack" then
               pick (partitionObjs objs lastType).2.2.2 ro
             else none) with
      | none => none
      | some target =>
        some (target, availableTypesOf (partitionObjs objs lastType),
          chosenType)

/-- `_try_alternative_target`: drop the failed type from the stored
`available_types`, draw another type, and draw a target among **all**
registered objects of that class (no availability filter here). -/
def tryAlternativeTarget (allObjs : List SelObj) (availableTypes : List String)
    (failedType : String) (r1 r2 : Nat) : Option SelObj :=
  if availableTypes.isEmpty then none
  else if (availableTypes.filter (· ≠ failedType)).isEmpty then none
  else
    match pick (availableTypes.filter (· ≠ failedType)) r1 with
    | none => none
    | some nextType =>
        if nextType = "Treadmill" then
          pick (allObjs.filter (fun o => strContains (className o.cls) "Treadmill")) r2
        else if nextType = "Bench" then
          pick (allObjs.filter (fun o => strContains (className o.cls) "Bench")) r2
        else if nextType = "DumbbellRack" then
          pick (allObjs.filter (fun o => strContains (className o.cls) "DumbbellRack")) r2
        else if nextType = "SquatRack" then
          pick (allObjs.filter (fun o => strContains (className o.cls) "SquatRack")) r2
        else none

/-- The `last_gym_object_type` value excluded for a given class (the
`gym_object_types` tile-id map of `_update_last_gym_object_type`). -/
def lastTypeOf : GymClass → Option String
  | .bench => some "bench"
  | .treadmill => some "treadmill"
  | .dumbbellRack => some "dumbbell_rack"
  | .squatRack => some "squat_rack"
  | _ => none

/-- The class-name string used by the selection branches for each
equipment class. -/
def typeNameOf : GymClass → String
  | .bench => "Bench"
  | .treadmill => "Treadmill"
  | .dumbbellRack => "DumbbellRack"
  | .squatRack => "SquatRack"
  | .frontDesk => "FrontDesk"
  | .trashcan => "Trashcan"

/-! ## NPC departure logic (`core/npc.py`, `NPC._update_departure`,
`NPC.start_departure`, `NPC._complete_gym_interaction`)

Only the fields these methods read or write are modelled.  The two
pathfinding queries of `start_departure` (to `(32, exit_y)` and, on
failure, to `(48, exit_y)`) go through the shared pathfinder; their
results are passed in as explicit `Option` arguments. -/

structure NpcState where
  checkedIn : Bool
  needsCheckIn : Bool
  arrivalTime : Int
  departureDuration : Int
  isDeparting : Bool
  isWorkingOut : Bool
  workoutType : Option String
  cleaningPhase : Option String
  targetObject : Option Nat
  targetObjectCoords : Option (Nat × Nat)
  aiState : String
  departurePending : Bool
  departureDelay : Option Int
  departureTarget : Option (Int × Int)
  departureDirectTarget : Option (Int × Int)
  directTarget : Option (Int × Int)
  currentPath : List Coord
  pathIndex : Nat
  moving : Bool
  hidden : Bool
  lastGymObjectType : Option String
  pendingCleaningCheck : Bool
  behaviorTimer : Int
  deriving Repr, DecidableEq

namespace NpcState

/-- `should_depart(current_time)`. -/
def shouldDepart (n : NpcState) (t : Int) : Bool :=
  if n.arrivalTime = 0 then false
  else decide (n.departureDuration ≤ t - n.arrivalTime)

/-- `end_workout`. -/
def endWorkout (n : NpcState) : NpcState :=
  if n.isWorkingOut then
    { n with isWorkingOut := false, workoutType := none }
  else n

/-- `start_departure(exit_x, exit_y)`: set the departing flags, stop any
workout, clear path and target, switch to `"moving"`, and take the first
successful of the two pathfinding attempts (falling back to direct
movement). -/
def startDeparture (n : NpcState) (exitPos : Int × Int)
    (path closerPath : Option (List Coord)) : NpcState :=
  let n := { n with isDeparting := true, departureTarget := some exitPos }
  let n := n.endWorkout
  let n := { n with currentPath := [], pathIndex := 0, targetObject := none,
                    aiState := "moving" }
  match path with
  | some p =>
    { n with currentPath := p, pathIndex := 0, moving := true,
             departureDirectTarget := some exitPos }
  | none =>
    match closerPath with
    | some p =>
      { n with currentPath := p, pathIndex := 0, moving := true,
               departureDirectTarget := some exitPos }
    | none => { n with currentPath := [], pathIndex := 0,
                       directTarget := some exitPos }

/-- The exit point used by `_update_departure` (off-screen left, row 10). -/
def exitPoint : Int × Int := (-80, 10 * 16 + 8)

/-- `_update_departure(delta_time)`.  Returns the new state together with
whether `end_interaction` was invoked on the target equipment.  The
working-out and cleaning branches `return` immediately after setting
`departure_pending` (deferring departure); the in-transit and
`"interacting"` branches fall through to `start_departure`. -/
def updateDeparture (n : NpcState) (t dt : Int)
    (path closerPath : Option (List Coord)) : NpcState × Bool :=
  if n.isDeparting then (n, false)
  else
    let afterCheck : (NpcState × Bool) × Bool :=
      if n.checkedIn && n.shouldDepart t then
        if n.isWorkingOut then (({ n with departurePending := true }, false), true)
        else if n.cleaningPhase.isSome then
          (({ n with departurePending := true }, false), true)
        else
          let (n', ended) :=
            if n.targetObject.isSome then
              ({ n with targetObject := none, currentPath := [], pathIndex := 0,
                        aiState := "idle" }, false)
            else if n.aiState = "interacting" then
              ({ n with aiState := "idle" }, n.targetObject.isSome)
            else (n, false)
          ((n'.startDeparture exitPoint path closerPath, ended), false)
      else ((n, false), false)
    let ((n1, ended), returned) := afterCheck
    if returned then (n1, ended)
    else
      match n1.departureDelay with
      | some d =>
        if 0 < d then
          let d' := d - dt
          if d' ≤ 0 then
            (({ n1 with departureDelay := none
                }).startDeparture exitPoint path closerPath, ended)
          else ({ n1 with departureDelay := some d' }, ended)
        else (n1, ended)
      | none => (n1, ended)

/-- `_update_last_gym_object_type(tile_id)`. -/
def updateLastType (n : NpcState) (tileId : Int) : NpcState :=
  if tileId = 0 then { n with lastGymObjectType := some "bench" }
  else if tileId = 1 then { n with lastGymObjectType := some "treadmill" }
  else if tileId = 2 then { n with lastGymObjectType := some "dumbbell_rack" }
  else if tileId = 4 then { n with lastGymObjectType := some "squat_rack" }
  else n

/-- `stop_workout_animation`. -/
def stopWorkout (n : NpcState) : NpcState :=
  { n with isWorkingOut := false, workoutType := none }

/-- The equipment-specific middle section of `_complete_gym_interaction`
(stop the workout animation for dumbbell racks and squat racks, unhide
after a squat rack, record the last-used type). -/
def completeMid (n : NpcState) (tileId : Int) : NpcState :=
  let n1 :=
    if tileId = 2 && n.isWorkingOut && n.workoutType = some "dumbbell" then
      n.stopWorkout
    else n
  let n2 :=
    if tileId = 4 then
      { (if n1.isWorkingOut && n1.workoutType = some "squat_rack" then
           n1.stopWorkout else n1) with hidden := false }
    else n1
  n2.updateLastType tileId

/-- The shared tail of `_complete_gym_interaction` for non-bench
equipment: unhide, reset to `"idle"`, clear the target, and — when a
departure was pending — start departure at once. -/
def completeTail (n : NpcState)
    (path closerPath : Option (List Coord)) : NpcState :=
  let n1 := { n with hidden := false, aiState := "idle",
                     targetObjectCoords := none }
  if n1.departurePending then
    ({ n1 with departurePending := false }).startDeparture exitPoint
      path closerPath
  else n1

/-- `_complete_gym_interaction` (the natural completion callback fired by
the equipment's `end_interaction`), at the level of the modelled fields:
check-in for the front desk, early return into the delayed dirty-check for
benches, and `completeMid` followed by `completeTail` for the other
equipment. -/
def completeGymInteraction (n : NpcState) (tileId : Int)
    (path closerPath : Option (List Coord)) : NpcState :=
  if n.targetObjectCoords.isNone then n
  else if tileId = 5 then
    { n with checkedIn := true, needsCheckIn := false, hidden := false,
             aiState := "idle", behaviorTimer := 0, targetObjectCoords := none }
  else if tileId = 6 then { n with aiState := "idle" }
  else if tileId = 0 then
    { n.completeMid tileId with pendingCleaningCheck := true }
  else completeTail (n.completeMid tileId) path closerPath

end NpcState

/-! ## Concrete fixtures for counterexamples and witnesses -/

/-- A 3×3 pathfinder, no walls, one occupied **non-bench** equipment (as a
treadmill is: no `bench_type` attribute) whose collision rect covers
exactly grid cell `(1, 0)`. -/
def pfTreadmill : GymPathfinder :=
  { width := 3, height := 3, cellSize := 16,
    layer1 := [[0, 0, 0], [0, 0, 0], [0, 0, 0]],
    objects := [{ rect := ⟨16, 0, 31, 15⟩, occupied := true,
                  hasBenchType := false }],
    walkable := fun _ _ => true, obstacleCache := [], cacheDirty := false }

/-- An NPC hidden mid-interaction on a bench (its `ai_state` is
`"interacting"`, no workout animation, no cleaning phase) whose stay time
has exceeded the departure duration. -/
def npcInteracting : NpcState :=
  { checkedIn := true, needsCheckIn := false, arrivalTime := 1,
    departureDuration := 60, isDeparting := false, isWorkingOut := false,
    workoutType := none, cleaningPhase := none, targetObject := some 0,
    targetObjectCoords := some (3, 2), aiState := "interacting",
    departurePending := false, departureDelay := none,
    departureTarget := none, departureDirectTarget := none,
    directTarget := none, currentPath := [], pathIndex := 0,
    moving := false, hidden := true, lastGymObjectType := none,
    pendingCleaningCheck := false, behaviorTimer := 0 }

/-- The same NPC mid-workout on a dumbbell rack (workout animation
running, visible), used to witness the deferral branch. -/
def npcWorking : NpcState :=
  { npcInteracting with
    isWorkingOut := true,
    workoutType := some "dumbbell", hidden := false }

/-- A 3×2 pathfinder with the default cell size, used to witness the
coordinate-mapping properties. -/
def pfSmall : GymPathfinder :=
  { width := 3, height := 2, cellSize := 16,
    layer1 := [[0, 0, 0], [0, 0, 0]],
    objects := [], walkable := fun _ _ => true, obstacleCache := [],
    cacheDirty := true }

/-- The claim that after a rebuild the unwalkable cells are exactly: cells
under a colliding wall tile, cells under a registered equipment's
collision rect, and the south-adjacent cells in front of **every**
occupied equipment instance. -/
def frontClaimAt (pf : GymPathfinder) : Prop :=
  ∀ x y : Nat, x < pf.width → y < pf.height →
    ((pf.markCacheDirty.updateObstacleCache).walkable x y = false ↔
      (isCollidable (pf.tileAt x y) = true ∨
       (∃ o ∈ pf.objects, pf.coveredB o x y = true) ∨
       (∃ o ∈ pf.objects, o.occupied = true ∧ 0 < y ∧
         pf.coveredB o x (y - 1) = true)))

/-! ## Theorems -/

theorem markCells_spec (cs : List (Nat × Nat)) (g : Nat → Nat → Bool)
    (x y : Nat) :
    GymPathfinder.markCells g cs x y =
      if (x, y) ∈ cs then false else g x y := by
  induction cs generalizing g with
  | nil => simp [GymPathfinder.markCells]
  | cons c cs ih =>
    show GymPathfinder.markCells _ cs x y = _
    rw [ih]
    by_cases h1 : (x, y) ∈ cs <;> by_cases h2 : (x, y) = c <;>
      simp_all [Prod.ext_iff]

theorem intRange_mem (a b : Int) (n : Nat) (ha : 0 ≤ a) :
    n ∈ GymPathfinder.intRange a b ↔ (a ≤ (n : Int) ∧ (n : Int) < b) := by
  simp only [GymPathfinder.intRange, List.mem_map, List.mem_range]
  constructor
  · rintro ⟨i, hi, rfl⟩
    omega
  · rintro ⟨h1, h2⟩
    exact ⟨(n - a).toNat, by omega, by omega⟩

theorem wallCells_mem (pf : GymPathfinder) (x y : Nat) :
    (x, y) ∈ pf.wallCells ↔
      (x < pf.width ∧ y < pf.height ∧
        isCollidable (pf.tileAt x y) = true) := by
  simp only [GymPathfinder.wallCells, List.mem_flatMap, List.mem_map,
    List.mem_filter, List.mem_range]
  constructor
  · rintro ⟨y', hy', x', ⟨⟨hx', hcol⟩, heq⟩⟩
    obtain ⟨rfl, rfl⟩ := Prod.mk.injEq .. ▸ heq
    exact ⟨hx', hy', hcol⟩
  · rintro ⟨hx, hy, hcol⟩
    exact ⟨y, hy, x, ⟨⟨hx, hcol⟩, rfl⟩⟩

theorem objCells_mem (pf : GymPathfinder) (o : Obstacle) (x y : Nat) :
    (x, y) ∈ pf.objCells o ↔
      (pf.coveredB o x y = true ∨ pf.frontB o x y = true) := by
  have hx0 : (0 : Int) ≤ max 0 (o.rect.left.fdiv pf.cellSize) :=
    le_max_left 0 _
  have hy0 : (0 : Int) ≤ max 0 (o.rect.top.fdiv pf.cellSize) :=
    le_max_left 0 _
  simp only [GymPathfinder.objCells, List.mem_flatMap]
  constructor
  · rintro ⟨gx, hgx, gy, hgy, hmem⟩
    rw [intRange_mem _ _ _ hx0] at hgx
    rw [intRange_mem _ _ _ hy0] at hgy
    by_cases hg : gx < pf.width ∧ gy < pf.height
    · rw [if_pos hg] at hmem
      rcases List.mem_cons.mp hmem with heq | hmem2
      · obtain ⟨rfl, rfl⟩ := Prod.mk.injEq .. ▸ heq
        left
        simp only [GymPathfinder.coveredB, Bool.and_eq_true,
          decide_eq_true_eq]
        omega
      · by_cases hf : o.occupied ∧ o.hasBenchType ∧ gx < pf.width ∧
            gy + 1 < pf.height
        · rw [if_pos hf] at hmem2
          rcases List.mem_singleton.mp hmem2 with heq
          obtain ⟨rfl, rfl⟩ := Prod.mk.injEq .. ▸ heq
          right
          simp only [GymPathfinder.frontB, GymPathfinder.coveredB,
            Bool.and_eq_true, decide_eq_true_eq, Nat.add_sub_cancel]
          refine ⟨⟨⟨⟨hf.1, hf.2.1⟩, by omega⟩, by omega⟩, ?_⟩
          omega
        · rw [if_neg hf] at hmem2
          exact absurd hmem2 (List.not_mem_nil _)
    · rw [if_neg hg] at hmem
      exact absurd hmem (List.not_mem_nil _)
  · rintro (hcov | hfr)
    · simp only [GymPathfinder.coveredB, Bool.and_eq_true,
        decide_eq_true_eq] at hcov
      refine ⟨x, ?_, y, ?_, ?_⟩
      · rw [intRange_mem _ _ _ hx0]; omega
      · rw [intRange_mem _ _ _ hy0]; omega
      · rw [if_pos (by omega)]
        exact List.mem_cons_self _ _
    · simp only [GymPathfinder.frontB, GymPathfinder.coveredB,
        Bool.and_eq_true, decide_eq_true_eq] at hfr
      obtain ⟨⟨⟨⟨hocc, hbench⟩, hy1⟩, hyh⟩, hc⟩ := hfr
      refine ⟨x, ?_, y - 1, ?_, ?_⟩
      · rw [intRange_mem _ _ _ hx0]; omega
      · rw [intRange_mem _ _ _ hy0]; omega
      · rw [if_pos (by omega)]
        refine List.mem_cons_of_mem _ ?_
        rw [if_pos ⟨hocc, hbench, by omega, by omega⟩]
        have hy' : y - 1 + 1 = y := by omega
        rw [hy']
        exact List.mem_singleton.mpr rfl

theorem allObjCells_mem (pf : GymPathfinder) (x y : Nat) :
    (x, y) ∈ pf.allObjCells ↔
      ∃ o ∈ pf.objects,
        (pf.coveredB o x y = true ∨ pf.frontB o x y = true) := by
  simp only [GymPathfinder.allObjCells, List.mem_flatMap]
  constructor
  · rintro ⟨o, ho, hmem⟩
    exact ⟨o, ho, (objCells_mem pf o x y).mp hmem⟩
  · rintro ⟨o, ho, h⟩
    exact ⟨o, ho, (objCells_mem pf o x y).mpr h⟩

/-- **C2 (amended)**: after `mark_cache_dirty` and a rebuild, a grid cell
is unwalkable exactly when it lies under a colliding wall tile, under a
registered equipment's collision rect, or directly south of a covered
cell of an occupied **bench-type** equipment instance (only `Bench`
objects carry the `bench_type` attribute, and one extra cell is blocked
below every covered cell, i.e. one per covered column); all remaining
cells are walkable. -/
theorem updateObstacleCache_characterisation (pf : GymPathfinder)
    (x y : Nat) (hx : x < pf.width) (hy : y < pf.height) :
    ((pf.markCacheDirty.updateObstacleCache).walkable x y = false ↔
      (isCollidable (pf.tileAt x y) = true ∨
       ∃ o ∈ pf.objects,
         (pf.coveredB o x y = true ∨ pf.frontB o x y = true))) := by
  have hpf : pf.markCacheDirty.updateObstacleCache.walkable =
      GymPathfinder.markCells
        (GymPathfinder.markCells (fun _ _ => true) pf.wallCells)
        pf.allObjCells := by
    simp [GymPathfinder.markCacheDirty, GymPathfinder.updateObstacleCache,
      GymPathfinder.wallCells, GymPathfinder.allObjCells,
      GymPathfinder.objCells, GymPathfinder.tileAt]
  rw [hpf, markCells_spec, markCells_spec]
  by_cases h1 : (x, y) ∈ pf.allObjCells <;>
    by_cases h2 : (x, y) ∈ pf.wallCells <;>
      simp only [h1, h2, if_pos, if_neg, if_true, if_false] <;>
      rw [wallCells_mem] at h2 <;> rw [allObjCells_mem] at h1 <;>
      simp_all

/-- Witness for the C2 characterisation: the covered cell `(1, 0)` of the
occupied treadmill fixture is reported unwalkable by the rebuilt cache. -/
theorem updateObstacleCache_characterisation_witness :
    ((pfTreadmill.markCacheDirty.updateObstacleCache).walkable 1 0 = false ↔
      (isCollidable (pfTreadmill.tileAt 1 0) = true ∨
       ∃ o ∈ pfTreadmill.objects,
         (pfTreadmill.coveredB o 1 0 = true ∨
          pfTreadmill.frontB o 1 0 = true))) :=
  updateObstacleCache_characterisation pfTreadmill 1 0 (by decide) (by decide)

/-- Counterexample to **C2** as stated: the south cell in front of an
occupied *treadmill* (which has no `bench_type` attribute) stays
walkable, so the front-cell blocking does not happen for every occupied
equipment instance. -/
theorem updateObstacleCache_front_counterexample :
    ¬ frontClaimAt pfTreadmill := fun h =>
  absurd ((h 1 1 (by decide) (by decide)).mpr (by decide)) (by decide)

theorem startDeparture_fields (n : NpcState) (e : Int × Int)
    (p c : Option (List GymSim.Coord)) :
    (n.startDeparture e p c).isDeparting = true ∧
    (n.startDeparture e p c).aiState = "moving" ∧
    (n.startDeparture e p c).targetObject = none := by
  unfold NpcState.startDeparture NpcState.endWorkout
  cases p <;> cases c <;> by_cases h : n.isWorkingOut <;> simp [h]

/-- Counterexample to **C6** as stated: an NPC hidden mid-interaction on
a bench (ai_state `"interacting"`, no workout animation) whose stay time
has expired is *not* deferred — `_update_departure` interrupts the
activity at once: its ai_state leaves `"interacting"`, the target is
dropped and departure starts immediately instead of waiting for the
natural completion callback. -/
theorem updateDeparture_interrupts_interaction :
    npcInteracting.aiState = "interacting" ∧
    npcInteracting.shouldDepart 100 = true ∧
    (npcInteracting.updateDeparture 100 0 none none).1.aiState = "moving" ∧
    (npcInteracting.updateDeparture 100 0 none none).1.isDeparting = true ∧
    (npcInteracting.updateDeparture 100 0 none none).1.departurePending
      = false := by
  refine ⟨rfl, by decide, ?_, ?_, ?_⟩ <;> rfl

/-- **C6 (amended)**: departure is deferred — state unchanged except for
the `departure_pending` flag, with no interruption — exactly when the
expired NPC is mid-workout-animation (`is_working_out`) or mid-cleaning
(`cleaning_phase` set); and when the activity's natural completion
callback fires with `departure_pending` set (non-bench equipment),
departure starts automatically, without another idle cycle.  An NPC that
is merely `"interacting"` without a workout animation is interrupted
immediately (see the counterexample). -/
theorem updateDeparture_defers_workout_and_cleaning :
    (∀ (n : NpcState) (t dt : Int) (p c : Option (List GymSim.Coord)),
      n.isDeparting = false → n.checkedIn = true → n.shouldDepart t = true →
      n.isWorkingOut = true →
      n.updateDeparture t dt p c = ({ n with departurePending := true }, false)) ∧
    (∀ (n : NpcState) (t dt : Int) (p c : Option (List GymSim.Coord)),
      n.isDeparting = false → n.checkedIn = true → n.shouldDepart t = true →
      n.isWorkingOut = false → n.cleaningPhase.isSome = true →
      n.updateDeparture t dt p c = ({ n with departurePending := true }, false)) ∧
    (∀ (n : NpcState) (tileId : Int) (p c : Option (List GymSim.Coord)),
      n.targetObjectCoords.isSome = true → n.departurePending = true →
      (tileId = 1 ∨ tileId = 2 ∨ tileId = 4) →
      (n.completeGymInteraction tileId p c).isDeparting = true ∧
      (n.completeGymInteraction tileId p c).aiState = "moving") := by
  refine ⟨?_, ?_, ?_⟩
  · intro n t dt p c hd hc hs hw
    simp [NpcState.updateDeparture, hd, hc, hs, hw]
  · intro n t dt p c hd hc hs hw hcl
    simp [NpcState.updateDeparture, hd, hc, hs, hw, hcl]
  · intro n tileId p c htc hdp htile
    have hsome : ¬ (n.targetObjectCoords.isNone = true) := by
      cases h : n.targetObjectCoords <;> simp_all
    have hmid : ∀ t : Int, (n.completeMid t).departurePending = true := by
      intro t
      simp only [NpcState.completeMid, NpcState.updateLastType,
        NpcState.stopWorkout]
      split_ifs <;> simp_all
    have key : ∀ m : NpcState, m.departurePending = true →
        (NpcState.completeTail m p c).isDeparting = true ∧
        (NpcState.completeTail m p c).aiState = "moving" := by
      intro m hm
      simp only [NpcState.completeTail, hm]
      exact ⟨(startDeparture_fields _ _ _ _).1,
        (startDeparture_fields _ _ _ _).2.1⟩
    rcases htile with rfl | rfl | rfl <;>
      · unfold NpcState.completeGymInteraction
        rw [if_neg hsome, if_neg (by decide), if_neg (by decide),
          if_neg (by decide)]
        exact key _ (hmid _)

theorem pick_mem {α : Type} (l : List α) (k : Nat) (a : α)
    (h : pick l k = some a) : a ∈ l := by
  unfold pick at h
  exact List.getElem?_mem h

/-- On the concrete class names of the repository, the substring tests of
the selection code identify classes exactly. -/
theorem strContains_className (k c : GymClass)
    (h : strContains (className k) (typeNameOf c) = true) : k = c := by
  cases k <;> cases c <;> revert h <;> decide

theorem partition_mem_pattern (objs : List SelObj) (lt : Option String)
    (o : SelObj) :
    (o ∈ (partitionObjs objs lt).1 →
      strContains (className o.cls) "Bench" = true) ∧
    (o ∈ (partitionObjs objs lt).2.1 →
      strContains (className o.cls) "Treadmill" = true) ∧
    (o ∈ (partitionObjs objs lt).2.2.1 →
      strContains (className o.cls) "DumbbellRack" = true) ∧
    (o ∈ (partitionObjs objs lt).2.2.2 →
      strContains (className o.cls) "SquatRack" = true) := by
  unfold partitionObjs
  split_ifs <;>
    refine ⟨?_, ?_, ?_, ?_⟩ <;> intro h <;>
      first
        | exact absurd h (List.not_mem_nil _)
        | (simp only [List.mem_filter, Bool.and_eq_true] at h
           first | exact h.2 | exact h.2.1)

theorem partition_excluded (objs : List SelObj) :
    (partitionObjs objs (some "bench")).1 = [] ∧
    (partitionObjs objs (some "treadmill")).2.1 = [] ∧
    (partitionObjs objs (some "dumbbell_rack")).2.2.1 = [] ∧
    (partitionObjs objs (some "squat_rack")).2.2.2 = [] :=
  ⟨rfl, rfl, rfl, rfl⟩

theorem availableTypes_spec
    (p : List SelObj × List SelObj × List SelObj × List SelObj)
    (s : String) (h : s ∈ availableTypesOf p) :
    (s = "Treadmill" ∧ p.2.1 ≠ []) ∨ (s = "Bench" ∧ p.1 ≠ []) ∨
    (s = "DumbbellRack" ∧ p.2.2.1 ≠ []) ∨
    (s = "SquatRack" ∧ p.2.2.2 ≠ []) := by
  obtain ⟨b, t, d, sq⟩ := p
  simp only [availableTypesOf] at h
  split_ifs at h <;>
    simp_all [List.isEmpty_iff, List.mem_append]

theorem preferredType_spec (bt : String)
    (p : List SelObj × List SelObj × List SelObj × List SelObj)
    (ct : String) (h : preferredTypeOf bt p = some ct) :
    (ct = "Treadmill" ∧ p.2.1 ≠ []) ∨ (ct = "Bench" ∧ p.1 ≠ []) ∨
    (ct = "DumbbellRack" ∧ p.2.2.1 ≠ []) ∨
    (ct = "SquatRack" ∧ p.2.2.2 ≠ []) := by
  obtain ⟨b, t, d, sq⟩ := p
  simp only [preferredTypeOf] at h
  split_ifs at h <;> simp_all [List.isEmpty_iff]

/-- Any successful selection draws its target from one of the four
partition lists, and stores exactly the `available_types` of the
partition. -/
theorem chooseNewBehavior_spec (objs : List SelObj) (lt : Option String)
    (bt : String) (rt ro : Nat) (tgt : SelObj) (avts : List String)
    (ct : String)
    (h : chooseNewBehavior objs lt bt rt ro = some (tgt, avts, ct)) :
    (tgt ∈ (partitionObjs objs lt).1 ∨ tgt ∈ (partitionObjs objs lt).2.1 ∨
     tgt ∈ (partitionObjs objs lt).2.2.1 ∨
     tgt ∈ (partitionObjs objs lt).2.2.2) ∧
    avts = availableTypesOf (partitionObjs objs lt) := by
  unfold chooseNewBehavior at h
  split_ifs at h
  split at h
  · exact absurd h (by simp)
  · rename_i ct0 hct
    split at h
    · exact absurd h (by simp)
    · rename_i tgt0 htg
      simp only [Option.some.injEq, Prod.mk.injEq] at h
      obtain ⟨rfl, rfl, rfl⟩ := h
      refine ⟨?_, rfl⟩
      split_ifs at htg <;>
        first
          | exact Or.inl (pick_mem _ _ _ htg)
          | exact Or.inr (Or.inl (pick_mem _ _ _ htg))
          | exact Or.inr (Or.inr (Or.inl (pick_mem _ _ _ htg)))
          | exact Or.inr (Or.inr (Or.inr (pick_mem _ _ _ htg)))

/-- `_try_alternative_target` keeps drawing only from types named in the
stored `available_types`, so a type absent from it is never selected. -/
theorem tryAlternative_no_excluded (allObjs : List SelObj)
    (avts : List String) (failed : String) (r1 r2 : Nat) (tgt2 : SelObj)
    (c : GymClass) (hnin : typeNameOf c ∉ avts)
    (h : tryAlternativeTarget allObjs avts failed r1 r2 = some tgt2) :
    tgt2.cls ≠ c := by
  unfold tryAlternativeTarget at h
  split_ifs at h
  split at h
  · exact absurd h (by simp)
  · rename_i nx hnx
    have hmem : nx ∈ avts := (List.mem_filter.mp (pick_mem _ _ _ hnx)).1
    intro hcls
    subst hcls
    split_ifs at h with h1 h2 h3 h4
    · have := strContains_className tgt2.cls .treadmill
        (List.mem_filter.mp (pick_mem _ _ _ h)).2
      rw [this] at hnin
      simp only [typeNameOf] at hnin
      exact hnin (h1 ▸ hmem)
    · have := strContains_className tgt2.cls .bench
        (List.mem_filter.mp (pick_mem _ _ _ h)).2
      rw [this] at hnin
      simp only [typeNameOf] at hnin
      exact hnin (h2 ▸ hmem)
    · have := strContains_className tgt2.cls .dumbbellRack
        (List.mem_filter.mp (pick_mem _ _ _ h)).2
      rw [this] at hnin
      simp only [typeNameOf] at hnin
      exact hnin (h3 ▸ hmem)
    · have := strContains_className tgt2.cls .squatRack
        (List.mem_filter.mp (pick_mem _ _ _ h)).2
      rw [this] at hnin
      simp only [typeNameOf] at hnin
      exact hnin (h4 ▸ hmem)

/-- **C7**: whenever the NPC's `last_gym_object_type` names one of the
four equipment types, a successful target selection never picks that
type (whatever the random draws), its stored `available_types` never
contains that type's name, and therefore the alternative-target retry
after a pathfinding failure never picks it either. -/
theorem selection_never_repeats_last_type (c : GymClass) (lt : String)
    (hlt : lastTypeOf c = some lt) (objs : List SelObj) (bt : String)
    (rt ro : Nat) (tgt : SelObj) (avts : List String) (ct : String)
    (h : chooseNewBehavior objs (some lt) bt rt ro = some (tgt, avts, ct)) :
    tgt.cls ≠ c ∧ typeNameOf c ∉ avts ∧
    (∀ (allObjs : List SelObj) (failed : String) (r1 r2 : Nat)
       (tgt2 : SelObj),
       tryAlternativeTarget allObjs avts failed r1 r2 = some tgt2 →
       tgt2.cls ≠ c) := by
  obtain ⟨hmem, havts⟩ := chooseNewBehavior_spec objs (some lt) bt rt ro
    tgt avts ct h
  have hpat := partition_mem_pattern objs (some lt) tgt
  have main : tgt.cls ≠ c ∧ typeNameOf c ∉ avts := by
    cases c with
    | frontDesk => exact absurd hlt (by simp [lastTypeOf])
    | trashcan => exact absurd hlt (by simp [lastTypeOf])
    | bench =>
      obtain rfl : lt = "bench" := (Option.some.inj hlt).symm
      constructor
      · intro hcls
        rcases hmem with hm | hm | hm | hm
        · exact absurd ((partition_excluded objs).1 ▸ hm)
            (List.not_mem_nil _)
        · exact absurd (hcls ▸ strContains_className tgt.cls .treadmill
            (hpat.2.1 hm)) (by decide)
        · exact absurd (hcls ▸ strContains_className tgt.cls .dumbbellRack
            (hpat.2.2.1 hm)) (by decide)
        · exact absurd (hcls ▸ strContains_className tgt.cls .squatRack
            (hpat.2.2.2 hm)) (by decide)
      · rw [havts]
        intro hin
        rcases availableTypes_spec _ _ hin with ⟨he, hne⟩ | ⟨he, hne⟩ |
          ⟨he, hne⟩ | ⟨he, hne⟩
        · exact absurd he (by decide)
        · exact hne (partition_excluded objs).1
        · exact absurd he (by decide)
        · exact absurd he (by decide)
    | treadmill =>
      obtain rfl : lt = "treadmill" := (Option.some.inj hlt).symm
      constructor
      · intro hcls
        rcases hmem with hm | hm | hm | hm
        · exact absurd (hcls ▸ strContains_className tgt.cls .bench
            (hpat.1 hm)) (by decide)
        · exact absurd ((partition_excluded objs).2.1 ▸ hm)
            (List.not_mem_nil _)
        · exact absurd (hcls ▸ strContains_className tgt.cls .dumbbellRack
            (hpat.2.2.1 hm)) (by decide)
        · exact absurd (hcls ▸ strContains_className tgt.cls .squatRack
            (hpat.2.2.2 hm)) (by decide)
      · rw [havts]
        intro hin
        rcases availableTypes_spec _ _ hin with ⟨he, hne⟩ | ⟨he, hne⟩ |
          ⟨he, hne⟩ | ⟨he, hne⟩
        · exact hne (partition_excluded objs).2.1
        · exact absurd he (by decide)
        · exact absurd he (by decide)
        · exact absurd he (by decide)
    | dumbbellRack =>
      obtain rfl : lt = "dumbbell_rack" := (Option.some.inj hlt).symm
      constructor
      · intro hcls
        rcases hmem with hm | hm | hm | hm
        · exact absurd (hcls ▸ strContains_className tgt.cls .bench
            (hpat.1 hm)) (by decide)
        · exact absurd (hcls ▸ strContains_className tgt.cls .treadmill
            (hpat.2.1 hm)) (by decide)
        · exact absurd ((partition_excluded objs).2.2.1 ▸ hm)
            (List.not_mem_nil _)
        · exact absurd (hcls ▸ strContains_className tgt.cls .squatRack
            (hpat.2.2.2 hm)) (by decide)
      · rw [havts]
        intro hin
        rcases availableTypes_spec _ _ hin with ⟨he, hne⟩ | ⟨he, hne⟩ |
          ⟨he, hne⟩ | ⟨he, hne⟩
        · exact absurd he (by decide)
        · exact absurd he (by decide)
        · exact hne (partition_excluded objs).2.2.1
        · exact absurd he (by decide)
    | squatRack =>
      obtain rfl : lt = "squat_rack" := (Option.some.inj hlt).symm
      constructor
      · intro hcls
        rcases hmem with hm | hm | hm | hm
        · exact absurd (hcls ▸ strContains_className tgt.cls .bench
            (hpat.1 hm)) (by decide)
        · exact absurd (hcls ▸ strContains_className tgt.cls .treadmill
            (hpat.2.1 hm)) (by decide)
        · exact absurd (hcls ▸ strContains_className tgt.cls .dumbbellRack
            (hpat.2.2.1 hm)) (by decide)
        · exact absurd ((partition_excluded objs).2.2.2 ▸ hm)
            (List.not_mem_nil _)
      · rw [havts]
        intro hin
        rcases availableTypes_spec _ _ hin with ⟨he, hne⟩ | ⟨he, hne⟩ |
          ⟨he, hne⟩ | ⟨he, hne⟩
        · exact absurd he (by decide)
        · exact absurd he (by decide)
        · exact absurd he (by decide)
        · exact hne (partition_excluded objs).2.2.2
  refine ⟨main.1, main.2, ?_⟩
  intro allObjs failed r1 r2 tgt2 h2
  exact tryAlternative_no_excluded allObjs avts failed r1 r2 tgt2 c
    main.2 h2

/-- Witness for C7: with `last_gym_object_type = "bench"` and a single
treadmill registered, selection succeeds, never picks a bench, stores
`available_types = ["Treadmill"]`, and the retry never picks a bench. -/
theorem selection_never_repeats_last_type_witness :
    (⟨GymClass.treadmill, "treadmill", true, true⟩ : SelObj).cls ≠
      GymClass.bench ∧
    typeNameOf GymClass.bench ∉ ["Treadmill"] ∧
    (∀ (allObjs : List SelObj) (failed : String) (r1 r2 : Nat)
       (tgt2 : SelObj),
       tryAlternativeTarget allObjs ["Treadmill"] failed r1 r2 =
         some tgt2 →
       tgt2.cls ≠ GymClass.bench) :=
  selection_never_repeats_last_type GymClass.bench "bench" (by decide)
    [⟨GymClass.treadmill, "treadmill", true, true⟩] "treadmill_user" 0 0
    ⟨GymClass.treadmill, "treadmill", true, true⟩ ["Treadmill"] "Treadmill"
    (by decide)


/-- Witness for the amended C6: the mid-workout NPC is deferred, and its
completion callback then starts departure at once. -/
theorem updateDeparture_defers_workout_witness :
    (npcWorking.updateDeparture 100 0 none none =
      ({ npcWorking with departurePending := true }, false)) ∧
    (({ npcWorking with departurePending := true } :
        NpcState).completeGymInteraction 2 none none).isDeparting = true :=
  ⟨updateDeparture_defers_workout_and_cleaning.1 npcWorking 100 0 none none
      rfl rfl (by decide) rfl,
   (updateDeparture_defers_workout_and_cleaning.2.2
      { npcWorking with departurePending := true } 2 none none rfl rfl
      (Or.inr (Or.inl rfl))).1⟩

/-- **C1**: a second NPC's `start_interaction` on an occupied equipment
instance returns false and leaves the state unchanged; after
`end_interaction` clears the occupancy, the next `start_interaction`
succeeds provided the instance is available (and, for a dumbbell rack,
a full borrow unit of 2 dumbbells remains); the occupant reference is a
single optional field, so at most one occupant exists at any state. -/
theorem startInteraction_exclusive_and_recoverable :
    (∀ (o : GymObj) (npc2 : Nat), o.occupied = true →
      o.startInteraction npc2 = (o, false)) ∧
    (∀ (o : GymObj) (npc : Nat), (o.endInteraction).isAvailable = true →
      ((o.endInteraction).startInteraction npc).2 = true ∧
      ((o.endInteraction).startInteraction npc).1.occupied = true ∧
      ((o.endInteraction).startInteraction npc).1.occupyingNpc = some npc) ∧
    (∀ (r : DumbbellRack) (npc2 : Nat), r.base.occupied = true →
      r.startInteraction npc2 = (r, false)) ∧
    (∀ (r : DumbbellRack) (npc : Nat), r.isAvailable = true →
      2 ≤ r.dumbbellCount → (r.startInteraction npc).2 = true) := by
  refine ⟨?_, ?_, ?_, ?_⟩
  · intro o npc2 h
    simp [GymObj.startInteraction, GymObj.isAvailable, h]
  · intro o npc h
    simp [GymObj.startInteraction, h, GymObj.addState]
  · intro r npc2 h
    simp [DumbbellRack.startInteraction, GymObj.startInteraction,
      GymObj.isAvailable, h]
  · intro r npc hav hcnt
    have hb : r.base.isAvailable = true := by
      simp only [DumbbellRack.isAvailable, Bool.and_eq_true] at hav
      exact hav.1.1
    simp only [DumbbellRack.startInteraction, GymObj.startInteraction, hb,
      Bool.not_true, Bool.false_eq_true, if_false]
    simp only [DumbbellRack.useDumbbell]
    rw [if_pos hcnt]
    split
    · rename_i heq
      simp at heq
    · split <;> rfl

/-- Witness for C1 at concrete inputs: an occupied object rejects the
second NPC unchanged, and an available rack with two dumbbells accepts. -/
theorem startInteraction_exclusive_and_recoverable_witness :
    ((⟨true, some 0, 0, ["in_use"]⟩ : GymObj).occupied = true ∧
      (⟨true, some 0, 0, ["in_use"]⟩ : GymObj).startInteraction 1 =
        (⟨true, some 0, 0, ["in_use"]⟩, false)) ∧
    ((⟨⟨false, none, 0, []⟩, 2, 6, 2, [(20, 2)], []⟩ :
        DumbbellRack).isAvailable = true ∧
      ((⟨⟨false, none, 0, []⟩, 2, 6, 2, [(20, 2)], []⟩ :
        DumbbellRack).startInteraction 5).2 = true) :=
  ⟨⟨rfl, startInteraction_exclusive_and_recoverable.1 _ 1 rfl⟩,
   ⟨by decide, startInteraction_exclusive_and_recoverable.2.2.2 _ 5
      (by decide) (by decide)⟩⟩

/-- **C5**: when the availability check passes but fewer than 2 dumbbells
remain, the defensive re-check makes the whole `start_interaction` call
fail and roll back the occupancy: the rack ends not occupied, with no
occupant, and with its inventory count unchanged. -/
theorem dumbbellRack_defensive_rollback (r : DumbbellRack) (npc : Nat)
    (hav : r.isAvailable = true) (hlt : r.dumbbellCount < 2) :
    (r.startInteraction npc).2 = false ∧
    (r.startInteraction npc).1.base.occupied = false ∧
    (r.startInteraction npc).1.base.occupyingNpc = none ∧
    (r.startInteraction npc).1.dumbbellCount = r.dumbbellCount := by
  have hb : r.base.isAvailable = true := by
    simp only [DumbbellRack.isAvailable, Bool.and_eq_true] at hav
    exact hav.1.1
  simp only [DumbbellRack.startInteraction, GymObj.startInteraction, hb,
    Bool.not_true, Bool.false_eq_true, if_false]
  simp only [DumbbellRack.useDumbbell]
  rw [if_neg (by omega)]
  simp [GymObj.endInteraction, GymObj.removeState]

/-- Witness for C5: a rack holding a single dumbbell whose visual frame is
stale (frame 2), so `is_available` passes yet the borrow of 2 fails. -/
theorem dumbbellRack_defensive_rollback_witness :
    ((⟨⟨false, none, 7, []⟩, 1, 6, 2, [(20, 1)], []⟩ :
        DumbbellRack).isAvailable = true ∧
      (⟨⟨false, none, 7, []⟩, 1, 6, 2, [(20, 1)], []⟩ :
        DumbbellRack).dumbbellCount < 2) ∧
    (((⟨⟨false, none, 7, []⟩, 1, 6, 2, [(20, 1)], []⟩ :
        DumbbellRack).startInteraction 3).2 = false ∧
      ((⟨⟨false, none, 7, []⟩, 1, 6, 2, [(20, 1)], []⟩ :
        DumbbellRack).startInteraction 3).1.base.occupied = false ∧
      ((⟨⟨false, none, 7, []⟩, 1, 6, 2, [(20, 1)], []⟩ :
        DumbbellRack).startInteraction 3).1.base.occupyingNpc = none ∧
      ((⟨⟨false, none, 7, []⟩, 1, 6, 2, [(20, 1)], []⟩ :
        DumbbellRack).startInteraction 3).1.dumbbellCount =
        (⟨⟨false, none, 7, []⟩, 1, 6, 2, [(20, 1)], []⟩ :
        DumbbellRack).dumbbellCount) :=
  ⟨⟨by decide, by decide⟩,
   dumbbellRack_defensive_rollback _ 3 (by decide) (by decide)⟩

/-- Counterexample to **C8** as stated: a dumbbell rack at the
half-depleted frame 1 (not the "full" frame 0) is reported available, and
a treadmill that is neither occupied nor dirty but was left running is
reported unavailable — so availability of non-rack equipment is not
"not occupied and not dirty" either. -/
theorem isAvailable_full_frame_counterexample :
    ((⟨⟨false, none, 0, []⟩, 4, 6, 1, [], []⟩ :
        DumbbellRack).isAvailable = true ∧
      (⟨⟨false, none, 0, []⟩, 4, 6, 1, [], []⟩ :
        DumbbellRack).currentVisualFrame ≠ 0) ∧
    ((⟨⟨false, none, 0, []⟩, true⟩ : Treadmill).isAvailable = false ∧
      (⟨⟨false, none, 0, []⟩, true⟩ : Treadmill).base.occupied = false ∧
      (⟨⟨false, none, 0, []⟩, true⟩ :
        Treadmill).base.states.contains "dirty" = false) := by
  decide

/-- **C8 (amended)**: `is_available` characterised per class: base
equipment (benches included) iff not occupied and not dirty; dumbbell
racks additionally need a positive count and a visual frame other than
the empty frame 3; squat racks additionally need a positive plate count
and exactly the full frame 0; treadmills need not-occupied and
not-left-running (the dirty state is not consulted). -/
theorem isAvailable_characterisation :
    (∀ o : GymObj, o.isAvailable = true ↔
      (o.occupied = false ∧ o.states.contains "dirty" = false)) ∧
    (∀ r : DumbbellRack, r.isAvailable = true ↔
      (r.base.occupied = false ∧ r.base.states.contains "dirty" = false ∧
       0 < r.dumbbellCount ∧ r.currentVisualFrame ≠ 3)) ∧
    (∀ s : SquatRack, s.isAvailable = true ↔
      (s.base.occupied = false ∧ s.base.states.contains "dirty" = false ∧
       0 < s.plateCount ∧ s.currentVisualFrame = 0)) ∧
    (∀ t : Treadmill, t.isAvailable = true ↔
      (t.base.occupied = false ∧ t.onButNotOccupied = false)) := by
  refine ⟨?_, ?_, ?_, ?_⟩
  · intro o
    simp [GymObj.isAvailable, Bool.and_eq_true, Bool.not_eq_true']
  · intro r
    simp [DumbbellRack.isAvailable, GymObj.isAvailable, Bool.and_eq_true,
      Bool.not_eq_true', and_assoc]
  · intro s
    simp [SquatRack.isAvailable, GymObj.isAvailable, Bool.and_eq_true,
      Bool.not_eq_true', and_assoc]
  · intro t
    simp [Treadmill.isAvailable, Bool.and_eq_true, Bool.not_eq_true']

/-- **C9**: rebuilding the obstacle cache is idempotent — a second
`update_obstacle_cache` with no intervening `mark_cache_dirty` changes
nothing (walkability grid and obstacle set included). -/
theorem updateObstacleCache_idempotent (pf : GymPathfinder) :
    pf.updateObstacleCache.updateObstacleCache = pf.updateObstacleCache := by
  cases h : pf.cacheDirty <;>
    simp [GymPathfinder.updateObstacleCache, h]

/-- **C10**: the coordinate mappings round-trip on every in-bounds grid
cell, and `screen_to_grid` is total on all integer screen coordinates,
always returning a cell clamped inside the grid bounds. -/
theorem screenToGrid_roundtrip_and_total :
    (∀ (pf : GymPathfinder) (x y : Nat), 0 < pf.cellSize →
      x < pf.width → y < pf.height →
      pf.screenToGrid (pf.gridToScreen x y).1 (pf.gridToScreen x y).2 =
        (x, y)) ∧
    (∀ (pf : GymPathfinder) (sx sy : Int), 0 < pf.width → 0 < pf.height →
      (pf.screenToGrid sx sy).1 < pf.width ∧
      (pf.screenToGrid sx sy).2 < pf.height) := by
  constructor
  · intro pf x y hc hx hy
    have key : ∀ n : Nat, (((n : Int) * pf.cellSize +
        pf.cellSize.fdiv 2).fdiv pf.cellSize) = n := by
      intro n
      have h2 : (0 : Int) ≤ pf.cellSize.fdiv 2 :=
        Int.fdiv_nonneg (by omega) (by omega)
      have h3 : pf.cellSize.fdiv 2 < pf.cellSize := by
        rw [Int.fdiv_eq_ediv _ (by omega : (0 : Int) ≤ 2)]
        omega
      rw [Int.fdiv_eq_ediv _ (le_of_lt hc), add_comm, mul_comm,
        Int.add_mul_ediv_left _ _ (by omega : pf.cellSize ≠ 0),
        Int.ediv_eq_zero_of_lt h2 h3, zero_add]
    simp only [GymPathfinder.screenToGrid, GymPathfinder.gridToScreen, key]
    have : max 0 (min ((pf.width : Int) - 1) (x : Int)) = (x : Int) := by
      omega
    have h2 : max 0 (min ((pf.height : Int) - 1) (y : Int)) = (y : Int) := by
      omega
    rw [this, h2]
    simp
  · intro pf sx sy hw hh
    simp only [GymPathfinder.screenToGrid]
    omega

/-- Witness for C10: round-trip at cell `(2, 1)` of a 3×2 grid, and
clamped totality at the off-map coordinate `(-5, 999)`. -/
theorem screenToGrid_roundtrip_and_total_witness :
    (pfSmall.screenToGrid (pfSmall.gridToScreen 2 1).1
      (pfSmall.gridToScreen 2 1).2 = (2, 1)) ∧
    ((pfSmall.screenToGrid (-5) 999).1 < pfSmall.width ∧
     (pfSmall.screenToGrid (-5) 999).2 < pfSmall.height) :=
  ⟨screenToGrid_roundtrip_and_total.1 pfSmall 2 1 (by decide) (by decide)
      (by decide),
   screenToGrid_roundtrip_and_total.2 pfSmall (-5) 999 (by decide)
      (by decide)⟩

/-! ### Corner-cutting (C3): every parent link recorded by the search
points from a node to one of its `get_neighbors` predecessors, so the
reconstructed path is a chain of `get_neighbors` edges; `get_neighbors`
admits a diagonal edge only when both orthogonal flanks are valid. -/

namespace GymPathfinder

theorem relaxOne_parent_inv (pf : GymPathfinder) (allowDiagonal : Bool)
    (goal cur : Coord) (closed : List Coord) (so : AState × Array Coord)
    (nb : Coord) (hnb : nb ∈ pf.getNeighbors allowDiagonal cur)
    (hinv : ∀ n p, ((so.1).node n).parent = some p →
      n ∈ pf.getNeighbors allowDiagonal p) :
    ∀ n p, (((relaxOne pf goal cur closed so nb).1).node n).parent = some p →
      n ∈ pf.getNeighbors allowDiagonal p := by
  intro n p h
  simp only [relaxOne] at h
  split_ifs at h
  · exact hinv n p h
  · simp only [AState.update] at h
    split at h
    · rename_i heq
      obtain rfl : cur = p := by simpa using h
      exact heq ▸ hnb
    · exact hinv n p h
  · simp only [AState.update] at h
    split at h
    · rename_i heq
      obtain rfl : cur = p := by simpa using h
      exact heq ▸ hnb
    · exact hinv n p h
  · exact hinv n p h

theorem relaxFold_parent_inv (pf : GymPathfinder) (allowDiagonal : Bool)
    (goal cur : Coord) (closed : List Coord) :
    ∀ (l : List Coord), (∀ nb ∈ l, nb ∈ pf.getNeighbors allowDiagonal cur) →
    ∀ (so : AState × Array Coord),
      (∀ n p, ((so.1).node n).parent = some p →
        n ∈ pf.getNeighbors allowDiagonal p) →
      ∀ n p, (((l.foldl (relaxOne pf goal cur closed) so).1).node n).parent
          = some p → n ∈ pf.getNeighbors allowDiagonal p := by
  intro l
  induction l with
  | nil => intro _ so hinv; simpa using hinv
  | cons a as ih =>
    intro hl so hinv
    simp only [List.foldl_cons]
    exact ih (fun nb h => hl nb (List.mem_cons_of_mem _ h)) _
      (relaxOne_parent_inv pf allowDiagonal goal cur closed so a
        (hl a (List.mem_cons_self _ _)) hinv)

theorem relaxAll_parent_inv (pf : GymPathfinder) (allowDiagonal : Bool)
    (goal cur : Coord) (closed : List Coord) (so : AState × Array Coord)
    (hinv : ∀ n p, ((so.1).node n).parent = some p →
      n ∈ pf.getNeighbors allowDiagonal p) :
    ∀ n p,
      (((relaxAll pf allowDiagonal goal cur closed so).1).node n).parent
        = some p → n ∈ pf.getNeighbors allowDiagonal p := by
  unfold relaxAll
  exact relaxFold_parent_inv pf allowDiagonal goal cur closed
    (pf.getNeighbors allowDiagonal cur) (fun _ h => h) so hinv

theorem reconstructPath_chain (pf : GymPathfinder) (allowDiagonal : Bool)
    (s : AState)
    (hinv : ∀ n p, (s.node n).parent = some p →
      n ∈ pf.getNeighbors allowDiagonal p) :
    ∀ (fuel : Nat) (c : Coord),
      (reconstructPath s fuel c).getLast? = some c ∧
      List.Chain' (fun a b => b ∈ pf.getNeighbors allowDiagonal a)
        (reconstructPath s fuel c) := by
  intro fuel
  induction fuel with
  | zero => intro c; simp [reconstructPath]
  | succ n ih =>
    intro c
    simp only [reconstructPath]
    cases hp : (s.node c).parent with
    | none => simp
    | some p =>
      obtain ⟨hlast, hchain⟩ := ih p
      refine ⟨by simp, ?_⟩
      rw [List.chain'_append]
      refine ⟨hchain, List.chain'_singleton c, ?_⟩
      intro x hx y hy
      rw [hlast] at hx
      have hx2 : p = x := by simpa using hx
      have hy2 : c = y := by simpa using hy
      rw [← hx2, ← hy2]
      exact hinv c p hp

theorem astarLoop_chain (pf : GymPathfinder) (allowDiagonal : Bool)
    (goal : Coord) (fuel : Nat) :
    ∀ (s : AState) (openl : Array Coord) (closed : List Coord)
      (path : List Coord),
      (∀ n p, (s.node n).parent = some p →
        n ∈ pf.getNeighbors allowDiagonal p) →
      astarLoop pf allowDiagonal goal fuel s openl closed = some path →
      List.Chain' (fun a b => b ∈ pf.getNeighbors allowDiagonal a) path := by
  induction fuel with
  | zero =>
    intro s openl closed path _ h
    exact absurd h (by simp [astarLoop])
  | succ n ih =>
    intro s openl closed path hinv h
    rw [astarLoop] at h
    cases hp : heappop s openl with
    | none => rw [hp] at h; exact absurd h (by simp)
    | some pr =>
      obtain ⟨cur, rest⟩ := pr
      rw [hp] at h
      simp only at h
      split_ifs at h with hg
      · obtain rfl := Option.some.inj h
        exact (reconstructPath_chain pf allowDiagonal s hinv _ goal).2
      · exact ih _ _ _ _ (relaxAll_parent_inv pf allowDiagonal goal cur
          (cur :: closed) (s, rest) hinv) h

theorem neighbor_flanks (pf : GymPathfinder) (allowDiagonal : Bool)
    (a b : Coord) (hmem : b ∈ pf.getNeighbors allowDiagonal a)
    (hd : (b.1 - a.1).natAbs = 1 ∧ (b.2 - a.2).natAbs = 1) :
    pf.isValidB b.1 a.2 = true ∧ pf.isValidB a.1 b.2 = true := by
  unfold getNeighbors at hmem
  rw [List.mem_map] at hmem
  obtain ⟨d, hdmem, heq⟩ := hmem
  rw [List.mem_filter] at hdmem
  obtain ⟨hdirs, hok⟩ := hdmem
  subst heq
  have hd1 : d.1.natAbs = 1 := by
    have := hd.1
    simpa using this
  have hd2 : d.2.natAbs = 1 := by
    have := hd.2
    simpa using this
  have hdiag : allowDiagonal = true := by
    cases hall : allowDiagonal with
    | true => rfl
    | false =>
      rw [hall] at hdirs
      simp [dirs] at hdirs
      rcases hdirs with rfl | rfl | rfl | rfl <;> simp_all
  subst hdiag
  unfold stepOk at hok
  rw [Bool.and_eq_true] at hok
  have hflank := hok.2
  rw [if_pos (by simp [hd1, hd2])] at hflank
  rw [Bool.and_eq_true] at hflank
  exact hflank

/-- **C3**: every path returned by the A* search is free of corner
cutting: for each consecutive pair of cells differing by `(±1, ±1)`, the
two orthogonal flank cells shared with that diagonal step are both valid
(in bounds and walkable). -/
theorem findPathInternal_no_corner_cutting (pf : GymPathfinder)
    (start goal : Coord) (allowDiagonal : Bool) (path : List Coord)
    (h : pf.findPathInternal start goal allowDiagonal = some path) :
    List.Chain' (fun a b =>
      ((b.1 - a.1).natAbs = 1 ∧ (b.2 - a.2).natAbs = 1) →
      pf.isValidB b.1 a.2 = true ∧ pf.isValidB a.1 b.2 = true) path := by
  have hchain : List.Chain'
      (fun a b => b ∈ pf.getNeighbors allowDiagonal a) path := by
    unfold findPathInternal at h
    split_ifs at h
    refine astarLoop_chain pf allowDiagonal goal _ _ _ _ path ?_ h
    intro n p hp
    simp only at hp
    split at hp <;> simp_all
  exact hchain.imp (fun a b hmem hd => neighbor_flanks pf allowDiagonal a b hmem hd)

/-- Witness for C3: on the all-walkable 3×2 grid the search from `(0,0)`
to `(2,1)` with diagonals returns `[(0,0), (1,1), (2,1)]`, and its
diagonal step has both flanks valid. -/
theorem findPathInternal_no_corner_cutting_witness :
    pfSmall.findPathInternal (0, 0) (2, 1) true =
      some [(0, 0), (1, 1), (2, 1)] ∧
    List.Chain' (fun a b : Coord =>
      ((b.1 - a.1).natAbs = 1 ∧ (b.2 - a.2).natAbs = 1) →
      pfSmall.isValidB b.1 a.2 = true ∧ pfSmall.isValidB a.1 b.2 = true)
      [(0, 0), (1, 1), (2, 1)] :=
  ⟨by decide,
   findPathInternal_no_corner_cutting pfSmall (0, 0) (2, 1) true
     [(0, 0), (1, 1), (2, 1)] (by decide)⟩

end GymPathfinder

end GymSim
